import Mathlib

/-
Verification of the account transaction engine of `sistema_bancario_2.py`.

Shallow embedding conventions:
- Monetary amounts (Python floats holding currency values) are modelled as
  exact rationals `ℚ`; the source only adds, subtracts and compares them.
- The system clock is injected: every operation receives the `Timestamp` at
  which it runs (the source calls `datetime.now()` at application time).
  A `Timestamp` is a calendar date plus a time of day; the source stores the
  string `'dd/mm/yyyy HH:MM:SS'` and tests membership in a calendar day with
  `startswith('dd/mm/yyyy')`, which for this fixed-width format is exactly
  equality of the date component, modelled here as `date` equality.
- Python methods mutating `self` become functions `State → ... → State`.
- `Deposito.registrar` / `Saque.registrar` return a bare bool to their caller
  and print a branch-specific message.  The embedding returns the new account
  state together with a `Resultado` identifying the branch taken (success, or
  which rejection message was printed); the Python return value is recovered
  by `Resultado.retorno`.
-/

/-- Calendar timestamp with second resolution: `date` identifies the calendar
day (the `'dd/mm/yyyy'` part of the stored string, successive days having
successive numbers) and `time` the second within the day. -/
structure Timestamp where
  date : Nat
  time : Nat
deriving DecidableEq, Repr

/-- One entry of the history: the dict
`{'tipo': ..., 'valor': ..., 'data': ...}` appended by
`Historico.adicionar_transacao`. -/
structure RegistroTransacao where
  tipo : String
  valor : ℚ
  data : Timestamp
deriving DecidableEq, Repr

/-- `Historico`: the `_transacoes` list. -/
structure Historico where
  transacoes : List RegistroTransacao
deriving DecidableEq, Repr

/-- `Historico.__init__`: empty list of transactions. -/
def Historico.init : Historico := { transacoes := [] }

/-- The transaction value objects: `Deposito(valor)` and `Saque(valor)`;
a closed pair of variants of the abstract class `Transacao`. -/
inductive Transacao where
  | deposito (valor : ℚ)
  | saque (valor : ℚ)
deriving DecidableEq, Repr

/-- `Deposito.get_tipo` / `Saque.get_tipo`. -/
def Transacao.get_tipo : Transacao → String
  | .deposito _ => "DEPÓSITO"
  | .saque _ => "SAQUE"

/-- `Deposito.get_valor` / `Saque.get_valor`. -/
def Transacao.get_valor : Transacao → ℚ
  | .deposito valor => valor
  | .saque valor => valor

/-- `Historico.adicionar_transacao(transacao)`; the stored `'data'` field is
`datetime.now()` at application time, passed in as `now`. -/
def Historico.adicionar_transacao (h : Historico) (transacao : Transacao)
    (now : Timestamp) : Historico :=
  { transacoes := h.transacoes ++
      [{ tipo := transacao.get_tipo, valor := transacao.get_valor, data := now }] }

/-- `Historico.listar_transacoes()`. -/
def Historico.listar_transacoes (h : Historico) : List RegistroTransacao :=
  h.transacoes

/-- `Historico.gerar_relatorio(tipo=None)`: the generator
`for transacao in self._transacoes: if tipo is None or transacao['tipo'] == tipo: yield transacao`.
Each call creates a fresh generator over the list, so a call is modelled as
the full yielded sequence. -/
def Historico.gerar_relatorio (h : Historico) (tipo : Option String) :
    List RegistroTransacao :=
  h.transacoes.filter (fun transacao => tipo == none || some transacao.tipo == tipo)

/-- `len(historico)`. -/
def Historico.tamanho (h : Historico) : Nat := h.transacoes.length

/-- `Conta`: account state (`_cliente` is a reference to the owning client,
kept as that client's CPF key). -/
structure Conta where
  numero : Nat
  agencia : String
  cliente : String
  saldo : ℚ
  limite : ℚ
  limite_saques : Nat
  historico : Historico
deriving DecidableEq, Repr

/-- `Conta.__init__(numero, agencia, cliente, limite=500, limite_saques=3)`:
fresh account with zero balance and empty history. -/
def Conta.init (numero : Nat) (agencia : String) (cliente : String)
    (limite : ℚ) (limite_saques : Nat) : Conta :=
  { numero := numero, agencia := agencia, cliente := cliente,
    saldo := 0, limite := limite, limite_saques := limite_saques,
    historico := Historico.init }

/-- Outcome of `registrar`: which branch ran.  The Python functions return
only the bool `retorno`; the non-`sucesso` constructors record which of the
four distinct failure messages was printed/logged. -/
inductive Resultado where
  | sucesso
  | valorInvalido
  | saldoInsuficiente
  | limiteExcedido
  | limiteSaquesExcedido
deriving DecidableEq, Repr

/-- The value actually returned to the caller by
`Deposito.registrar`/`Saque.registrar`: `True` on success, `False` on any
rejection. -/
def Resultado.retorno : Resultado → Bool
  | .sucesso => true
  | _ => false

/-- `Conta.get_numero_saques_hoje()`: counts history entries whose `tipo` is
`'SAQUE'` and whose `'data'` string starts with today's `'dd/mm/yyyy'`,
i.e. whose date component equals today's date `data_hoje`. -/
def Conta.get_numero_saques_hoje (conta : Conta) (data_hoje : Nat) : Nat :=
  (conta.historico.listar_transacoes.filter
    (fun transacao => transacao.tipo == "SAQUE" && transacao.data.date == data_hoje)).length

/-- `Deposito(valor).registrar(conta)` at clock time `now`: returns the new
account state and the branch taken. -/
def Deposito.registrar (valor : ℚ) (conta : Conta) (now : Timestamp) :
    Conta × Resultado :=
  if valor ≤ 0 then
    (conta, Resultado.valorInvalido)
  else
    ({ conta with
        saldo := conta.saldo + valor,
        historico := conta.historico.adicionar_transacao (Transacao.deposito valor) now },
     Resultado.sucesso)

/-- `Saque(valor).registrar(conta)` at clock time `now`: the four checks in
source order, then the mutation. -/
def Saque.registrar (valor : ℚ) (conta : Conta) (now : Timestamp) :
    Conta × Resultado :=
  if valor ≤ 0 then
    (conta, Resultado.valorInvalido)
  else if valor > conta.saldo then
    (conta, Resultado.saldoInsuficiente)
  else if valor > conta.limite then
    (conta, Resultado.limiteExcedido)
  else if conta.get_numero_saques_hoje now.date ≥ conta.limite_saques then
    (conta, Resultado.limiteSaquesExcedido)
  else
    ({ conta with
        saldo := conta.saldo - valor,
        historico := conta.historico.adicionar_transacao (Transacao.saque valor) now },
     Resultado.sucesso)

/-- `Conta.depositar(valor)`: builds a `Deposito` and registers it. -/
def Conta.depositar (conta : Conta) (valor : ℚ) (now : Timestamp) :
    Conta × Resultado :=
  Deposito.registrar valor conta now

/-- `Conta.sacar(valor)`: builds a `Saque` and registers it. -/
def Conta.sacar (conta : Conta) (valor : ℚ) (now : Timestamp) :
    Conta × Resultado :=
  Saque.registrar valor conta now

/-- Sample fresh account for concrete witnesses (constructor defaults
`limite=500`, `limite_saques=3`). -/
def contaFresca : Conta := Conta.init 1 "0001" "111" 500 3

/-- Sample timestamp. -/
def ts0 : Timestamp := { date := 10, time := 0 }

example : (Deposito.registrar 5 contaFresca ts0).2 = Resultado.sucesso := by decide
example : (Saque.registrar 20 contaFresca ts0).2 = Resultado.saldoInsuficiente := by decide
example : (Deposito.registrar (-1) contaFresca ts0).2 = Resultado.valorInvalido := by decide

/-- One user request against an account: `conta.depositar(valor)` or
`conta.sacar(valor)` issued while the clock reads `now`. -/
inductive Op where
  | depositar (valor : ℚ) (now : Timestamp)
  | sacar (valor : ℚ) (now : Timestamp)
deriving DecidableEq, Repr

/-- Kind of the transaction an `Op` constructs (`get_tipo` of it). -/
def Op.tipo : Op → String
  | .depositar _ _ => "DEPÓSITO"
  | .sacar _ _ => "SAQUE"

/-- Amount of the transaction an `Op` constructs (`get_valor` of it). -/
def Op.valor : Op → ℚ
  | .depositar valor _ => valor
  | .sacar valor _ => valor

/-- Run one `Op` against an account. -/
def Conta.aplicar (conta : Conta) : Op → Conta × Resultado
  | .depositar valor now => conta.depositar valor now
  | .sacar valor now => conta.sacar valor now

/-- Run a sequence of operations, collecting the final account state and the
result of each operation in order. -/
def Conta.executarT (conta : Conta) : List Op → Conta × List Resultado
  | [] => (conta, [])
  | op :: ops =>
    (((conta.aplicar op).1.executarT ops).1,
      (conta.aplicar op).2 :: ((conta.aplicar op).1.executarT ops).2)

/-- Sum of the amounts of the operations of kind `tipo` whose paired result
is `sucesso` (the successful deposits, resp. withdrawals, of a run). -/
def somaSucessos (tipo : String) : List Op → List Resultado → ℚ
  | [], _ => 0
  | _ :: _, [] => 0
  | op :: ops, r :: rs =>
    (if op.tipo == tipo && r == Resultado.sucesso then op.valor else 0) +
      somaSucessos tipo ops rs

theorem aux_passo_saldo (conta : Conta) (op : Op) :
    (conta.aplicar op).1.saldo =
      conta.saldo
        + (if op.tipo == "DEPÓSITO" && (conta.aplicar op).2 == Resultado.sucesso then
            op.valor else 0)
        - (if op.tipo == "SAQUE" && (conta.aplicar op).2 == Resultado.sucesso then
            op.valor else 0) ∧
    (0 ≤ conta.saldo → 0 ≤ (conta.aplicar op).1.saldo) := by
  have hs2 : ((("DEPÓSITO" : String) == "SAQUE") = false) := by decide
  have hs4 : ((("SAQUE" : String) == "DEPÓSITO") = false) := by decide
  have hr1 : ((Resultado.valorInvalido == Resultado.sucesso) = false) := by decide
  have hr2 : ((Resultado.saldoInsuficiente == Resultado.sucesso) = false) := by decide
  have hr3 : ((Resultado.limiteExcedido == Resultado.sucesso) = false) := by decide
  have hr4 : ((Resultado.limiteSaquesExcedido == Resultado.sucesso) = false) := by decide
  cases op with
  | depositar valor now =>
    by_cases h : valor ≤ 0
    · simp [Conta.aplicar, Conta.depositar, Deposito.registrar, Op.tipo, Op.valor,
        h, hs2, hr1]
    · simp [Conta.aplicar, Conta.depositar, Deposito.registrar, Op.tipo, Op.valor,
        h, hs2]
      intro h0
      linarith [not_le.mp h]
  | sacar valor now =>
    by_cases h1 : valor ≤ 0
    · simp [Conta.aplicar, Conta.sacar, Saque.registrar, Op.tipo, Op.valor, h1, hs4, hr1]
    · by_cases h2 : valor > conta.saldo
      · simp [Conta.aplicar, Conta.sacar, Saque.registrar, Op.tipo, Op.valor,
          h1, h2, hs4, hr2]
      · by_cases h3 : valor > conta.limite
        · simp [Conta.aplicar, Conta.sacar, Saque.registrar, Op.tipo, Op.valor,
            h1, h2, h3, hs4, hr3]
        · by_cases h4 : conta.get_numero_saques_hoje now.date ≥ conta.limite_saques
          · simp [Conta.aplicar, Conta.sacar, Saque.registrar, Op.tipo, Op.valor,
              h1, h2, h3, h4, hs4, hr4]
          · simp [Conta.aplicar, Conta.sacar, Saque.registrar, Op.tipo, Op.valor,
              h1, h2, h3, h4, hs4]
            intro h0
            linarith [not_lt.mp h2]

theorem aux_executar_saldo (ops : List Op) : ∀ conta : Conta,
    (conta.executarT ops).1.saldo =
      conta.saldo + somaSucessos "DEPÓSITO" ops (conta.executarT ops).2
        - somaSucessos "SAQUE" ops (conta.executarT ops).2 ∧
    (0 ≤ conta.saldo → 0 ≤ (conta.executarT ops).1.saldo) := by
  induction ops with
  | nil => intro conta; simp [Conta.executarT, somaSucessos]
  | cons op ops ih =>
    intro conta
    have hstep := aux_passo_saldo conta op
    have hrest := ih (conta.aplicar op).1
    simp only [Conta.executarT, somaSucessos]
    constructor
    · rw [hrest.1, hstep.1]; ring
    · intro h0
      exact hrest.2 (hstep.2 h0)

/-- Claim C1: starting from a fresh account (zero balance, empty history,
any identifier, branch, owner and limits), after any sequence of
deposit/withdraw operations the balance equals the sum of the amounts of the
successful deposits minus the sum of the amounts of the successful
withdrawals, and the balance is non-negative.  Quantification over every
operation sequence covers every prefix of a run, hence "after every
operation". -/
theorem claim1_saldo_invariante (numero : Nat) (agencia cliente : String)
    (limite : ℚ) (limite_saques : Nat) (ops : List Op) :
    ((Conta.init numero agencia cliente limite limite_saques).executarT ops).1.saldo =
      somaSucessos "DEPÓSITO" ops
        ((Conta.init numero agencia cliente limite limite_saques).executarT ops).2
      - somaSucessos "SAQUE" ops
        ((Conta.init numero agencia cliente limite limite_saques).executarT ops).2 ∧
    0 ≤ ((Conta.init numero agencia cliente limite limite_saques).executarT ops).1.saldo := by
  have h := aux_executar_saldo ops (Conta.init numero agencia cliente limite limite_saques)
  have hz : (Conta.init numero agencia cliente limite limite_saques).saldo = 0 := rfl
  refine ⟨?_, h.2 (by rw [hz])⟩
  rw [h.1, hz]; ring

theorem aux_dep_rejeita (valor : ℚ) (conta : Conta) (now : Timestamp)
    (h : valor ≤ 0) :
    Deposito.registrar valor conta now = (conta, Resultado.valorInvalido) := by
  simp [Deposito.registrar, h]

theorem aux_dep_ok (valor : ℚ) (conta : Conta) (now : Timestamp) (h : ¬ valor ≤ 0) :
    Deposito.registrar valor conta now =
      ({ conta with
          saldo := conta.saldo + valor,
          historico := conta.historico.adicionar_transacao (Transacao.deposito valor) now },
        Resultado.sucesso) := by
  simp [Deposito.registrar, h]

theorem aux_saq_valor_invalido (valor : ℚ) (conta : Conta) (now : Timestamp)
    (h : valor ≤ 0) :
    Saque.registrar valor conta now = (conta, Resultado.valorInvalido) := by
  simp [Saque.registrar, h]

theorem aux_saq_saldo_insuficiente (valor : ℚ) (conta : Conta) (now : Timestamp)
    (h1 : ¬ valor ≤ 0) (h2 : valor > conta.saldo) :
    Saque.registrar valor conta now = (conta, Resultado.saldoInsuficiente) := by
  simp [Saque.registrar, h1, h2]

theorem aux_saq_limite_excedido (valor : ℚ) (conta : Conta) (now : Timestamp)
    (h1 : ¬ valor ≤ 0) (h2 : ¬ valor > conta.saldo) (h3 : valor > conta.limite) :
    Saque.registrar valor conta now = (conta, Resultado.limiteExcedido) := by
  simp [Saque.registrar, h1, h2, h3]

theorem aux_saq_limite_saques (valor : ℚ) (conta : Conta) (now : Timestamp)
    (h1 : ¬ valor ≤ 0) (h2 : ¬ valor > conta.saldo) (h3 : ¬ valor > conta.limite)
    (h4 : conta.get_numero_saques_hoje now.date ≥ conta.limite_saques) :
    Saque.registrar valor conta now = (conta, Resultado.limiteSaquesExcedido) := by
  simp [Saque.registrar, h1, h2, h3, h4]

theorem aux_saq_ok (valor : ℚ) (conta : Conta) (now : Timestamp)
    (h1 : ¬ valor ≤ 0) (h2 : ¬ valor > conta.saldo) (h3 : ¬ valor > conta.limite)
    (h4 : ¬ conta.get_numero_saques_hoje now.date ≥ conta.limite_saques) :
    Saque.registrar valor conta now =
      ({ conta with
          saldo := conta.saldo - valor,
          historico := conta.historico.adicionar_transacao (Transacao.saque valor) now },
        Resultado.sucesso) := by
  simp [Saque.registrar, h1, h2, h3, h4]

theorem aux_saq_sucesso_iff (valor : ℚ) (conta : Conta) (now : Timestamp) :
    (Saque.registrar valor conta now).2 = Resultado.sucesso ↔
      (¬ valor ≤ 0 ∧ ¬ valor > conta.saldo ∧ ¬ valor > conta.limite ∧
        ¬ conta.get_numero_saques_hoje now.date ≥ conta.limite_saques) := by
  simp only [Saque.registrar]
  split_ifs <;> simp_all

theorem aux_dep_sucesso_iff (valor : ℚ) (conta : Conta) (now : Timestamp) :
    (Deposito.registrar valor conta now).2 = Resultado.sucesso ↔ ¬ valor ≤ 0 := by
  simp only [Deposito.registrar]
  split_ifs <;> simp_all

/-- Claim C2: for a withdrawal with positive amount the three checks run in
source order and the first failing one determines the result: amount above
balance gives `saldoInsuficiente` (InsufficientFunds) regardless of the
overdraft limit; otherwise amount above the overdraft limit gives
`limiteExcedido` (LimitExceeded); otherwise a daily withdrawal count at or
above the cap gives `limiteSaquesExcedido` (DailyLimitExceeded). -/
theorem claim2_ordem_verificacoes (valor : ℚ) (conta : Conta) (now : Timestamp)
    (hpos : 0 < valor) :
    (valor > conta.saldo →
      (Saque.registrar valor conta now).2 = Resultado.saldoInsuficiente) ∧
    (valor ≤ conta.saldo → valor > conta.limite →
      (Saque.registrar valor conta now).2 = Resultado.limiteExcedido) ∧
    (valor ≤ conta.saldo → valor ≤ conta.limite →
      conta.get_numero_saques_hoje now.date ≥ conta.limite_saques →
      (Saque.registrar valor conta now).2 = Resultado.limiteSaquesExcedido) := by
  have h1 : ¬ valor ≤ 0 := not_le.mpr hpos
  refine ⟨?_, ?_, ?_⟩
  · intro h2
    rw [aux_saq_saldo_insuficiente valor conta now h1 h2]
  · intro hs h3
    rw [aux_saq_limite_excedido valor conta now h1 (not_lt.mpr hs) h3]
  · intro hs hl h4
    rw [aux_saq_limite_saques valor conta now h1 (not_lt.mpr hs) (not_lt.mpr hl) h4]

/-- Sample account with balance 10 (and default overdraft limit 500). -/
def contaSaldo10 : Conta := { contaFresca with saldo := 10 }

/-- Witness for claim C2: withdrawing 20 from balance 10 is rejected as
`saldoInsuficiente` even though 20 is within the overdraft limit 500. -/
theorem claim2_ordem_verificacoes_witness :
    (Saque.registrar 20 contaSaldo10 ts0).2 = Resultado.saldoInsuficiente :=
  (claim2_ordem_verificacoes 20 contaSaldo10 ts0 (by norm_num)).1 (by decide)

/-- Claim C3: a rejected deposit or withdrawal (any rejection reason, i.e.
any outcome other than `sucesso`) leaves the whole account state — balance
and history included — exactly unchanged. -/
theorem claim3_rejeicao_sem_efeito (valor : ℚ) (conta : Conta) (now : Timestamp) :
    ((Deposito.registrar valor conta now).2 ≠ Resultado.sucesso →
      (Deposito.registrar valor conta now).1 = conta) ∧
    ((Saque.registrar valor conta now).2 ≠ Resultado.sucesso →
      (Saque.registrar valor conta now).1 = conta) := by
  constructor
  · intro h
    by_cases hv : valor ≤ 0
    · rw [aux_dep_rejeita valor conta now hv]
    · rw [aux_dep_ok valor conta now hv] at h
      simp at h
  · intro h
    simp only [Saque.registrar] at h ⊢
    split_ifs at h ⊢ <;> simp_all

/-- Witness for claim C3: the rejected deposit of -1 leaves the account
unchanged. -/
theorem claim3_rejeicao_sem_efeito_witness :
    (Deposito.registrar (-1) contaFresca ts0).1 = contaFresca :=
  (claim3_rejeicao_sem_efeito (-1) contaFresca ts0).1 (by decide)

theorem aux_dep_dicotomia (valor : ℚ) (conta : Conta) (now : Timestamp) :
    Deposito.registrar valor conta now = (conta, Resultado.valorInvalido) ∨
    Deposito.registrar valor conta now =
      ({ conta with
          saldo := conta.saldo + valor,
          historico := conta.historico.adicionar_transacao (Transacao.deposito valor) now },
        Resultado.sucesso) := by
  by_cases h : valor ≤ 0
  · exact Or.inl (aux_dep_rejeita valor conta now h)
  · exact Or.inr (aux_dep_ok valor conta now h)

theorem aux_saq_dicotomia (valor : ℚ) (conta : Conta) (now : Timestamp) :
    (∃ r, r ≠ Resultado.sucesso ∧ Saque.registrar valor conta now = (conta, r)) ∨
    Saque.registrar valor conta now =
      ({ conta with
          saldo := conta.saldo - valor,
          historico := conta.historico.adicionar_transacao (Transacao.saque valor) now },
        Resultado.sucesso) := by
  by_cases h1 : valor ≤ 0
  · exact Or.inl ⟨Resultado.valorInvalido, by decide,
      aux_saq_valor_invalido valor conta now h1⟩
  · by_cases h2 : valor > conta.saldo
    · exact Or.inl ⟨Resultado.saldoInsuficiente, by decide,
        aux_saq_saldo_insuficiente valor conta now h1 h2⟩
    · by_cases h3 : valor > conta.limite
      · exact Or.inl ⟨Resultado.limiteExcedido, by decide,
          aux_saq_limite_excedido valor conta now h1 h2 h3⟩
      · by_cases h4 : conta.get_numero_saques_hoje now.date ≥ conta.limite_saques
        · exact Or.inl ⟨Resultado.limiteSaquesExcedido, by decide,
            aux_saq_limite_saques valor conta now h1 h2 h3 h4⟩
        · exact Or.inr (aux_saq_ok valor conta now h1 h2 h3 h4)

/-- Claim C4: a successful deposit or withdrawal appends exactly one history
entry carrying the transaction's kind, amount and the application-time
timestamp (so the history length grows by 1), a rejected one leaves the
history untouched (length grows by 0), and in every case no field of the
account other than `saldo` and `historico` changes. -/
theorem claim4_historico_efeito (valor : ℚ) (conta : Conta) (now : Timestamp) :
    ((Deposito.registrar valor conta now).2 = Resultado.sucesso →
      (Deposito.registrar valor conta now).1.historico.transacoes =
        conta.historico.transacoes ++
          [{ tipo := "DEPÓSITO", valor := valor, data := now }]) ∧
    ((Deposito.registrar valor conta now).2 = Resultado.sucesso →
      (Deposito.registrar valor conta now).1.historico.tamanho =
        conta.historico.tamanho + 1) ∧
    ((Deposito.registrar valor conta now).2 ≠ Resultado.sucesso →
      (Deposito.registrar valor conta now).1.historico = conta.historico) ∧
    ((Saque.registrar valor conta now).2 = Resultado.sucesso →
      (Saque.registrar valor conta now).1.historico.transacoes =
        conta.historico.transacoes ++
          [{ tipo := "SAQUE", valor := valor, data := now }]) ∧
    ((Saque.registrar valor conta now).2 = Resultado.sucesso →
      (Saque.registrar valor conta now).1.historico.tamanho =
        conta.historico.tamanho + 1) ∧
    ((Saque.registrar valor conta now).2 ≠ Resultado.sucesso →
      (Saque.registrar valor conta now).1.historico = conta.historico) ∧
    (Deposito.registrar valor conta now).1 =
      { conta with
          saldo := (Deposito.registrar valor conta now).1.saldo,
          historico := (Deposito.registrar valor conta now).1.historico } ∧
    (Saque.registrar valor conta now).1 =
      { conta with
          saldo := (Saque.registrar valor conta now).1.saldo,
          historico := (Saque.registrar valor conta now).1.historico } := by
  rcases aux_dep_dicotomia valor conta now with hd | hd <;>
    rcases aux_saq_dicotomia valor conta now with ⟨r, hr, hs⟩ | hs <;>
      rw [hd, hs] <;>
      simp_all [Historico.adicionar_transacao, Historico.tamanho,
        Transacao.get_tipo, Transacao.get_valor]

/-- Witness for claim C4: the successful deposit of 5 appends exactly the
entry `("DEPÓSITO", 5, ts0)` to the fresh account's empty history. -/
theorem claim4_historico_efeito_witness :
    (Deposito.registrar 5 contaFresca ts0).1.historico.transacoes =
      contaFresca.historico.transacoes ++
        [{ tipo := "DEPÓSITO", valor := 5, data := ts0 }] :=
  (claim4_historico_efeito 5 contaFresca ts0).1 (by decide)

/-- Claim C8: a deposit of a non-positive amount is rejected as
`valorInvalido` with no effect on the account; a deposit of a positive
amount always succeeds, adds exactly the amount to the balance and appends
one history entry; success happens exactly when the amount is positive, so
there is no other way for a deposit to fail. -/
theorem claim8_deposito (valor : ℚ) (conta : Conta) (now : Timestamp) :
    (valor ≤ 0 →
      Deposito.registrar valor conta now = (conta, Resultado.valorInvalido)) ∧
    (0 < valor →
      (Deposito.registrar valor conta now).2 = Resultado.sucesso ∧
      (Deposito.registrar valor conta now).1.saldo = conta.saldo + valor ∧
      (Deposito.registrar valor conta now).1.historico.transacoes =
        conta.historico.transacoes ++
          [{ tipo := "DEPÓSITO", valor := valor, data := now }]) ∧
    ((Deposito.registrar valor conta now).2 = Resultado.sucesso ↔ 0 < valor) := by
  refine ⟨fun h => aux_dep_rejeita valor conta now h, fun h => ?_, ?_⟩
  · rw [aux_dep_ok valor conta now (not_le.mpr h)]
    refine ⟨rfl, rfl, ?_⟩
    simp [Historico.adicionar_transacao, Transacao.get_tipo, Transacao.get_valor]
  · rw [aux_dep_sucesso_iff valor conta now, not_le]

/-- Witness for claim C8: the deposit of 5 on the fresh account succeeds. -/
theorem claim8_deposito_witness :
    (Deposito.registrar 5 contaFresca ts0).2 = Resultado.sucesso :=
  ((claim8_deposito 5 contaFresca ts0).2.2).mpr (by norm_num)

/-- Claim C10: the balance and overdraft-limit checks are strict
comparisons: withdrawing exactly the current (positive) balance, within the
overdraft limit and the daily cap, succeeds and leaves the balance at 0;
and a withdrawal of exactly the overdraft limit is never rejected as
`limiteExcedido`. -/
theorem claim10_fronteiras_estritas (conta : Conta) (now : Timestamp)
    (hpos : 0 < conta.saldo) (hlim : conta.saldo ≤ conta.limite)
    (hdia : conta.get_numero_saques_hoje now.date < conta.limite_saques) :
    (Saque.registrar conta.saldo conta now).2 = Resultado.sucesso ∧
    (Saque.registrar conta.saldo conta now).1.saldo = 0 ∧
    ∀ (c : Conta) (ts : Timestamp),
      (Saque.registrar c.limite c ts).2 ≠ Resultado.limiteExcedido := by
  rw [aux_saq_ok conta.saldo conta now (not_le.mpr hpos) (lt_irrefl _)
    (not_lt.mpr hlim) (not_le.mpr hdia)]
  refine ⟨rfl, by simp, ?_⟩
  intro c ts
  by_cases k1 : c.limite ≤ 0
  · simp [aux_saq_valor_invalido _ c ts k1]
  · by_cases k2 : c.limite > c.saldo
    · simp [aux_saq_saldo_insuficiente _ c ts k1 k2]
    · by_cases k4 : c.get_numero_saques_hoje ts.date ≥ c.limite_saques
      · simp [aux_saq_limite_saques _ c ts k1 k2 (lt_irrefl _) k4]
      · simp [aux_saq_ok _ c ts k1 k2 (lt_irrefl _) k4]

/-- Sample account with balance 100. -/
def contaSaldo100 : Conta := { contaFresca with saldo := 100 }

/-- Witness for claim C10: withdrawing the exact balance 100 (limit 500,
empty history) succeeds and zeroes the balance. -/
theorem claim10_fronteiras_estritas_witness :
    (Saque.registrar contaSaldo100.saldo contaSaldo100 ts0).2 = Resultado.sucesso ∧
    (Saque.registrar contaSaldo100.saldo contaSaldo100 ts0).1.saldo = 0 :=
  ⟨(claim10_fronteiras_estritas contaSaldo100 ts0 (by decide) (by decide)
      (by decide)).1,
    (claim10_fronteiras_estritas contaSaldo100 ts0 (by decide) (by decide)
      (by decide)).2.1⟩

/-- Claim C7: the filtered report yields exactly the history entries of the
requested kind, in original insertion order (the order-preserving filter of
the entry list), yields all entries when no kind is given, and its length is
the count of matching entries (e.g. 3 for kind `'SAQUE'` after 2 deposits
and 3 withdrawals, 5 for no kind).  `gerar_relatorio` is a pure function of
the history, so two calls on the same history yield the same full sequence:
each Python call builds a fresh generator over `_transacoes`, not a shared
one-shot cursor. -/
theorem claim7_relatorio_filtrado (h : Historico) (tipo : String) :
    h.gerar_relatorio (some tipo) =
      h.transacoes.filter (fun transacao => transacao.tipo == tipo) ∧
    h.gerar_relatorio none = h.transacoes ∧
    (h.gerar_relatorio (some tipo)).length =
      h.transacoes.countP (fun transacao => transacao.tipo == tipo) := by
  have hfiltro : h.gerar_relatorio (some tipo) =
      h.transacoes.filter (fun transacao => transacao.tipo == tipo) := by
    unfold Historico.gerar_relatorio
    apply List.filter_congr
    intro a _
    simp
  refine ⟨hfiltro, ?_, ?_⟩
  · unfold Historico.gerar_relatorio
    simp
  · rw [hfiltro, List.countP_eq_length_filter]

/-- Claim C5 counterexample: the Python `registrar` methods return only a
bool (`Resultado.retorno`).  The deposit of -1 and the withdrawal of 5 on a
fresh account are rejected for different reasons (invalid amount
vs. insufficient funds — different printed messages), yet the two returned
values are identical (`false`), so the rejection reason is not
distinguishable in the returned value. -/
theorem claim5_contraexemplo :
    (Deposito.registrar (-1) contaFresca ts0).2 = Resultado.valorInvalido ∧
    (Saque.registrar 5 contaFresca ts0).2 = Resultado.saldoInsuficiente ∧
    ((Deposito.registrar (-1) contaFresca ts0).2).retorno =
      ((Saque.registrar 5 contaFresca ts0).2).retorno := by
  decide

/-- Claim C5 as amended: every rejected deposit or withdrawal returns the
boolean `False` and every success returns `True`, so the caller can tell
success from failure; but all rejection reasons map to the same returned
value — the specific reason is reported only through the printed/logged
message, not through the value returned to the caller. -/
theorem claim5_emendado (valor : ℚ) (conta : Conta) (now : Timestamp) :
    (((Deposito.registrar valor conta now).2).retorno = true ↔
      (Deposito.registrar valor conta now).2 = Resultado.sucesso) ∧
    (((Saque.registrar valor conta now).2).retorno = true ↔
      (Saque.registrar valor conta now).2 = Resultado.sucesso) ∧
    (∀ r r2 : Resultado, r ≠ Resultado.sucesso → r2 ≠ Resultado.sucesso →
      r.retorno = r2.retorno) := by
  refine ⟨?_, ?_, ?_⟩
  · rcases hd : (Deposito.registrar valor conta now).2 <;> simp [Resultado.retorno]
  · rcases hs : (Saque.registrar valor conta now).2 <;> simp [Resultado.retorno]
  · intro r r2 hr hr2
    cases r <;> cases r2 <;> simp_all [Resultado.retorno]

/-- Witness for the amended claim C5: two distinct rejection reasons yield
the same returned value. -/
theorem claim5_emendado_witness :
    Resultado.valorInvalido.retorno = Resultado.saldoInsuficiente.retorno :=
  (claim5_emendado 1 contaFresca ts0).2.2 Resultado.valorInvalido
    Resultado.saldoInsuficiente (by decide) (by decide)

/-- Claim C6: on an account with daily cap 3, when the history already holds
3 withdrawals dated today (`get_numero_saques_hoje` = 3), a further
withdrawal of a valid amount today is rejected as `limiteSaquesExcedido`,
while the identical withdrawal on the following calendar date (assuming, as
for any clock that only moves forward, no history entry is dated on that
following date) succeeds; and the count used is exactly the number of
history entries of kind `'SAQUE'` dated on the current date. -/
theorem claim6_limite_diario (conta : Conta) (valor : ℚ) (d t t2 : Nat)
    (hcap : conta.limite_saques = 3)
    (hpos : 0 < valor) (hsaldo : valor ≤ conta.saldo) (hlim : valor ≤ conta.limite)
    (hhoje : conta.get_numero_saques_hoje d = 3)
    (hamanha : ∀ r ∈ conta.historico.transacoes, r.data.date ≠ d + 1) :
    (Saque.registrar valor conta { date := d, time := t }).2 =
      Resultado.limiteSaquesExcedido ∧
    (Saque.registrar valor conta { date := d + 1, time := t2 }).2 =
      Resultado.sucesso ∧
    conta.get_numero_saques_hoje d =
      (conta.historico.transacoes.filter
        (fun r => r.tipo == "SAQUE" && r.data.date == d)).length := by
  have h1 : ¬ valor ≤ 0 := not_le.mpr hpos
  have h2 : ¬ valor > conta.saldo := not_lt.mpr hsaldo
  have h3 : ¬ valor > conta.limite := not_lt.mpr hlim
  have h4 : conta.get_numero_saques_hoje d ≥ conta.limite_saques := by
    rw [hcap, hhoje]
  have hcount : conta.get_numero_saques_hoje (d + 1) = 0 := by
    have hnil : conta.historico.listar_transacoes.filter
        (fun r => r.tipo == "SAQUE" && r.data.date == d + 1) = [] := by
      rw [List.filter_eq_nil_iff]
      intro a ha
      have hne := hamanha a ha
      simp [hne]
    simp [Conta.get_numero_saques_hoje, hnil]
  have h5 : ¬ conta.get_numero_saques_hoje (d + 1) ≥ conta.limite_saques := by
    rw [hcap, hcount]
    omega
  refine ⟨?_, ?_, rfl⟩
  · rw [aux_saq_limite_saques valor conta { date := d, time := t } h1 h2 h3 h4]
  · rw [aux_saq_ok valor conta { date := d + 1, time := t2 } h1 h2 h3 h5]

/-- Sample account whose history holds exactly 3 withdrawals dated on day 10
(balance 100, overdraft limit 500, daily cap 3). -/
def contaTresSaques : Conta :=
  { numero := 1, agencia := "0001", cliente := "111", saldo := 100, limite := 500,
    limite_saques := 3,
    historico := { transacoes :=
      [ { tipo := "SAQUE", valor := 10, data := { date := 10, time := 1 } },
        { tipo := "SAQUE", valor := 10, data := { date := 10, time := 2 } },
        { tipo := "SAQUE", valor := 10, data := { date := 10, time := 3 } } ] } }

/-- Witness for claim C6: the fourth withdrawal of 50 on day 10 is rejected
by the daily cap; the identical withdrawal on day 11 succeeds. -/
theorem claim6_limite_diario_witness :
    (Saque.registrar 50 contaTresSaques { date := 10, time := 4 }).2 =
      Resultado.limiteSaquesExcedido ∧
    (Saque.registrar 50 contaTresSaques { date := 11, time := 0 }).2 =
      Resultado.sucesso :=
  ⟨(claim6_limite_diario contaTresSaques 50 10 4 0 (by decide) (by norm_num)
      (by decide) (by decide) (by decide) (by decide)).1,
    (claim6_limite_diario contaTresSaques 50 10 4 0 (by decide) (by norm_num)
      (by decide) (by decide) (by decide) (by decide)).2.1⟩

/-- `Cliente`: client record; `_contas` holds references to the client's
accounts, kept here as their account numbers (the bank's `_contas` list is
the owning store). -/
structure Cliente where
  nome : String
  cpf : String
  data_nascimento : String
  endereco : String
  contas : List Nat
deriving DecidableEq, Repr

/-- `Cliente.adicionar_conta(conta)`. -/
def Cliente.adicionar_conta (cliente : Cliente) (numero : Nat) : Cliente :=
  { cliente with contas := cliente.contas ++ [numero] }

/-- `Banco`: the registry state. -/
structure Banco where
  nome : String
  clientes : List Cliente
  contas : List Conta
  agencia_padrao : String
deriving DecidableEq, Repr

/-- `Banco.__init__(nome)`. -/
def Banco.init (nome : String) : Banco :=
  { nome := nome, clientes := [], contas := [], agencia_padrao := "0001" }

/-- `Banco.buscar_cliente(cpf)`: first client with that CPF, if any. -/
def Banco.buscar_cliente (b : Banco) (cpf : String) : Option Cliente :=
  b.clientes.find? (fun cliente => cliente.cpf == cpf)

/-- `Banco.criar_cliente(...)`: rejects a duplicate CPF, else appends a new
client (state part; the returned `Cliente|None` is omitted, it is derivable
from the lookup). -/
def Banco.criar_cliente (b : Banco) (nome cpf data_nascimento endereco : String) :
    Banco :=
  match b.buscar_cliente cpf with
  | some _ => b
  | none =>
    { b with clientes := b.clientes ++
        [{ nome := nome, cpf := cpf, data_nascimento := data_nascimento,
            endereco := endereco, contas := [] }] }

/-- `Banco.criar_conta(cpf)`: if the client exists, creates
`Conta(len(self._contas) + 1, self._agencia_padrao, cliente)` (constructor
defaults `limite=500`, `limite_saques=3`), appends it to the bank's account
list and registers it with the client. -/
def Banco.criar_conta (b : Banco) (cpf : String) : Banco :=
  match b.buscar_cliente cpf with
  | none => b
  | some _ =>
    let numero_conta := b.contas.length + 1
    { b with
        contas := b.contas ++ [Conta.init numero_conta b.agencia_padrao cpf 500 3],
        clientes := b.clientes.map (fun cliente =>
          if cliente.cpf == cpf then cliente.adicionar_conta numero_conta else cliente) }

/-- Update the account at an index of the bank's list, if it exists (a
deposit/withdraw request routed to that account; in the source the menu
mutates the shared `Conta` object in place). -/
def Banco.atualizar_conta (b : Banco) (indice : Nat) (f : Conta → Conta) : Banco :=
  match b.contas.get? indice with
  | none => b
  | some conta => { b with contas := b.contas.set indice (f conta) }

/-- One operation against the registry or one of its accounts. -/
inductive BancoOp where
  | criarCliente (nome cpf data_nascimento endereco : String)
  | criarConta (cpf : String)
  | depositar (indice : Nat) (valor : ℚ) (now : Timestamp)
  | sacar (indice : Nat) (valor : ℚ) (now : Timestamp)
deriving DecidableEq, Repr

/-- Apply one `BancoOp` to the bank state. -/
def Banco.aplicarOp (b : Banco) : BancoOp → Banco
  | .criarCliente nome cpf data_nascimento endereco =>
      b.criar_cliente nome cpf data_nascimento endereco
  | .criarConta cpf => b.criar_conta cpf
  | .depositar indice valor now =>
      b.atualizar_conta indice (fun conta => (Deposito.registrar valor conta now).1)
  | .sacar indice valor now =>
      b.atualizar_conta indice (fun conta => (Saque.registrar valor conta now).1)

/-- Invariant of claim C9: the default branch code is the fixed `"0001"` and
the account at position `i` of the bank's list carries number `i + 1` and
that branch code. -/
def Banco.bemNumerado (b : Banco) : Prop :=
  b.agencia_padrao = "0001" ∧
  ∀ i (h : i < b.contas.length),
    (b.contas.get ⟨i, h⟩).numero = i + 1 ∧ (b.contas.get ⟨i, h⟩).agencia = "0001"

theorem aux_registrar_frame_dep (valor : ℚ) (conta : Conta) (now : Timestamp) :
    (Deposito.registrar valor conta now).1.numero = conta.numero ∧
    (Deposito.registrar valor conta now).1.agencia = conta.agencia := by
  rcases aux_dep_dicotomia valor conta now with hd | hd <;> rw [hd] <;> exact ⟨rfl, rfl⟩

theorem aux_registrar_frame_saq (valor : ℚ) (conta : Conta) (now : Timestamp) :
    (Saque.registrar valor conta now).1.numero = conta.numero ∧
    (Saque.registrar valor conta now).1.agencia = conta.agencia := by
  rcases aux_saq_dicotomia valor conta now with ⟨r, _, hs⟩ | hs <;> rw [hs] <;>
    exact ⟨rfl, rfl⟩

theorem aux_get_append_lt {α : Type} (l : List α) (x : α) (i : Nat)
    (h : i < (l ++ [x]).length) (hi : i < l.length) :
    (l ++ [x]).get ⟨i, h⟩ = l.get ⟨i, hi⟩ := by
  rw [List.get_eq_getElem, List.get_eq_getElem, List.getElem_append_left]

theorem aux_get_append_last {α : Type} (l : List α) (x : α)
    (h : l.length < (l ++ [x]).length) :
    (l ++ [x]).get ⟨l.length, h⟩ = x := by
  rw [List.get_eq_getElem, List.getElem_append_right] <;> simp

theorem aux_get_set_eq {α : Type} (l : List α) (x : α) (i : Nat)
    (h : i < (l.set i x).length) :
    (l.set i x).get ⟨i, h⟩ = x := by
  rw [List.get_eq_getElem, List.getElem_set_self]

theorem aux_get_set_ne {α : Type} (l : List α) (x : α) (i j : Nat)
    (h : j < (l.set i x).length) (hj : j < l.length) (hne : i ≠ j) :
    (l.set i x).get ⟨j, h⟩ = l.get ⟨j, hj⟩ := by
  rw [List.get_eq_getElem, List.get_eq_getElem, List.getElem_set_ne hne]

theorem aux_numerado_append (l : List Conta) (c0 : Conta)
    (hc : c0.numero = l.length + 1) (hcag : c0.agencia = "0001")
    (hl : ∀ i (h : i < l.length),
      (l.get ⟨i, h⟩).numero = i + 1 ∧ (l.get ⟨i, h⟩).agencia = "0001") :
    ∀ i (h : i < (l ++ [c0]).length),
      ((l ++ [c0]).get ⟨i, h⟩).numero = i + 1 ∧
      ((l ++ [c0]).get ⟨i, h⟩).agencia = "0001" := by
  intro i h
  have hlen : i < l.length + 1 := by simpa using h
  by_cases hi : i < l.length
  · rw [aux_get_append_lt l c0 i h hi]
    exact hl i hi
  · have hieq : i = l.length := by omega
    subst hieq
    rw [aux_get_append_last l c0 h]
    exact ⟨hc, hcag⟩

theorem aux_numerado_set (l : List Conta) (j : Nat) (g : Conta → Conta)
    (conta : Conta) (hj : l.get? j = some conta)
    (hg : (g conta).numero = conta.numero ∧ (g conta).agencia = conta.agencia)
    (hl : ∀ i (h : i < l.length),
      (l.get ⟨i, h⟩).numero = i + 1 ∧ (l.get ⟨i, h⟩).agencia = "0001") :
    ∀ i (h : i < (l.set j (g conta)).length),
      ((l.set j (g conta)).get ⟨i, h⟩).numero = i + 1 ∧
      ((l.set j (g conta)).get ⟨i, h⟩).agencia = "0001" := by
  intro i h
  have hil : i < l.length := by simpa using h
  by_cases hi : j = i
  · subst hi
    have hjl : j < l.length := hil
    have hcj : l.get ⟨j, hjl⟩ = conta := by
      have h2 := List.get?_eq_get (l := l) (n := j) hjl
      rw [hj] at h2
      exact Option.some_inj.mp h2.symm
    rw [aux_get_set_eq l (g conta) j h, hg.1, hg.2, ← hcj]
    exact hl j hjl
  · rw [aux_get_set_ne l (g conta) j i h hil hi]
    exact hl i hil

theorem aux_bemNumerado_passo (b : Banco) (op : BancoOp) (hb : b.bemNumerado) :
    (b.aplicarOp op).bemNumerado := by
  obtain ⟨hag, hnum⟩ := hb
  cases op with
  | criarCliente nome cpf data_nascimento endereco =>
    simp only [Banco.aplicarOp, Banco.criar_cliente]
    cases hfind : b.buscar_cliente cpf with
    | some cliente => exact ⟨hag, hnum⟩
    | none => exact ⟨hag, hnum⟩
  | criarConta cpf =>
    simp only [Banco.aplicarOp, Banco.criar_conta]
    cases hfind : b.buscar_cliente cpf with
    | none => exact ⟨hag, hnum⟩
    | some cliente =>
      refine ⟨hag, ?_⟩
      exact aux_numerado_append b.contas
        (Conta.init (b.contas.length + 1) b.agencia_padrao cpf 500 3) rfl hag hnum
  | depositar indice valor now =>
    simp only [Banco.aplicarOp, Banco.atualizar_conta]
    cases hfind : b.contas.get? indice with
    | none => exact ⟨hag, hnum⟩
    | some conta =>
      refine ⟨hag, ?_⟩
      exact aux_numerado_set b.contas indice
        (fun conta => (Deposito.registrar valor conta now).1) conta hfind
        (aux_registrar_frame_dep valor conta now) hnum
  | sacar indice valor now =>
    simp only [Banco.aplicarOp, Banco.atualizar_conta]
    cases hfind : b.contas.get? indice with
    | none => exact ⟨hag, hnum⟩
    | some conta =>
      refine ⟨hag, ?_⟩
      exact aux_numerado_set b.contas indice
        (fun conta => (Saque.registrar valor conta now).1) conta hfind
        (aux_registrar_frame_saq valor conta now) hnum

theorem aux_bemNumerado_fold (ops : List BancoOp) : ∀ b : Banco, b.bemNumerado →
    (ops.foldl Banco.aplicarOp b).bemNumerado := by
  induction ops with
  | nil => intro b hb; exact hb
  | cons op ops ih =>
    intro b hb
    exact ih (b.aplicarOp op) (aux_bemNumerado_passo b op hb)

/-- Claim C9: in every bank state reachable from `Banco.__init__` by client
creation, account creation, deposits and withdrawals, the account at
position `i` of the registry carries the sequential number `i + 1` (the
n-th created account has number n, so account numbers are pairwise
distinct) and the fixed branch code `"0001"`. -/
theorem claim9_numeracao_sequencial (nome : String) (ops : List BancoOp)
    (i j : Nat) (h : i < (ops.foldl Banco.aplicarOp (Banco.init nome)).contas.length)
    (h2 : j < (ops.foldl Banco.aplicarOp (Banco.init nome)).contas.length)
    (hij : i ≠ j) :
    ((ops.foldl Banco.aplicarOp (Banco.init nome)).contas.get ⟨i, h⟩).numero = i + 1 ∧
    ((ops.foldl Banco.aplicarOp (Banco.init nome)).contas.get ⟨i, h⟩).agencia = "0001" ∧
    ((ops.foldl Banco.aplicarOp (Banco.init nome)).contas.get ⟨i, h⟩).numero ≠
      ((ops.foldl Banco.aplicarOp (Banco.init nome)).contas.get ⟨j, h2⟩).numero := by
  have hinit : (Banco.init nome).bemNumerado := by
    refine ⟨rfl, ?_⟩
    intro i hi
    simp [Banco.init] at hi
  have hb := aux_bemNumerado_fold ops (Banco.init nome) hinit
  obtain ⟨-, hnum⟩ := hb
  refine ⟨(hnum i h).1, (hnum i h).2, ?_⟩
  rw [(hnum i h).1, (hnum j h2).1]
  omega

/-- Sample run of the registry: one client, then one account for them. -/
def opsExemplo : List BancoOp :=
  [BancoOp.criarCliente "Ana" "111" "01/01/2000" "Rua X",
   BancoOp.criarConta "111",
   BancoOp.criarCliente "Bia" "222" "02/02/2002" "Rua Y",
   BancoOp.criarConta "222"]

/-- Witness for claim C9: after creating two clients and two accounts, the
accounts at positions 0 and 1 have numbers 1 and 2 and branch `"0001"`. -/
theorem claim9_numeracao_sequencial_witness :
    ((opsExemplo.foldl Banco.aplicarOp (Banco.init "Banco PyDIO")).contas.get
        ⟨0, by decide⟩).numero = 1 ∧
    ((opsExemplo.foldl Banco.aplicarOp (Banco.init "Banco PyDIO")).contas.get
        ⟨0, by decide⟩).agencia = "0001" ∧
    ((opsExemplo.foldl Banco.aplicarOp (Banco.init "Banco PyDIO")).contas.get
        ⟨0, by decide⟩).numero ≠
      ((opsExemplo.foldl Banco.aplicarOp (Banco.init "Banco PyDIO")).contas.get
        ⟨1, by decide⟩).numero :=
  claim9_numeracao_sequencial "Banco PyDIO" opsExemplo 0 1 (by decide) (by decide)
    (by decide)
